import Mathlib

/-!
Shallow embedding of the SQLite gateway package (package db) of the
empreendedor.dev repository: dual read/write pools, per-operation timeout
contexts, a deferred-cancellation row handle, and a write-transaction
wrapper. Underlying driver behavior (sql.Open, Ping, Commit, Rollback,
Exec, Query results) is modelled by explicit oracle values, and each
embedded function records the observable effects the specification talks
about: which context was passed to the driver, which pools were opened and
closed, what was logged, and whether the cancel token was invoked.
-/

namespace Db

/-- Nanoseconds in one time.Millisecond. -/
def millisecond : Nat := 1000000

/-- Nanoseconds in one time.Second. -/
def second : Nat := 1000000000

/-- Nanoseconds in one time.Minute. -/
def minute : Nat := 60 * second

/-- Tunable: defaultBusyTimeout = 15 * time.Second. -/
def defaultBusyTimeout : Nat := 15 * second

/-- Tunable: defaultWriteOpTimeout = 8 * time.Second. -/
def defaultWriteOpTimeout : Nat := 8 * second

/-- Tunable: defaultReadOpTimeout = 5 * time.Second. -/
def defaultReadOpTimeout : Nat := 5 * second

/-- Tunable: defaultConnMaxLifeRW = 2 * time.Minute. -/
def defaultConnMaxLifeRW : Nat := 2 * minute

/-- Tunable: defaultConnMaxLifeRO = 5 * time.Minute. -/
def defaultConnMaxLifeRO : Nat := 5 * minute

/-- Tunable: defaultReadPoolMinimum = 4 (raised to GOMAXPROCS if larger). -/
def defaultReadPoolMinimum : Nat := 4

/-- Duration.Milliseconds of a nanosecond count. -/
def milliseconds (d : Nat) : Nat := d / millisecond

/-- Go context values as they occur in this package: context.Background()
or context.WithTimeout(parent, d) with duration d in nanoseconds. -/
inductive Context where
  | background : Context
  | withTimeout : Context → Nat → Context
deriving Repr, DecidableEq

/-- Whether a context carries a timeout bound. -/
def Context.bounded : Context → Bool
  | Context.background => false
  | Context.withTimeout _ _ => true

/-- DSN for the write pool, from NewWithPath. -/
def rwDSN (path : String) : String :=
  "file:" ++ path ++
    "?_pragma=journal_mode(WAL)&_pragma=synchronous(NORMAL)&_pragma=busy_timeout(" ++
    toString (milliseconds defaultBusyTimeout) ++
    ")&_pragma=foreign_keys(ON)&_pragma=automatic_index(ON)&_pragma=temp_store(MEMORY)&_pragma=cache_size(-20000)&_txlock=immediate"

/-- DSN for the read-only pool, from NewWithPath. -/
def roDSN (path : String) : String :=
  "file:" ++ path ++ "?mode=ro&_pragma=busy_timeout(" ++
    toString (milliseconds defaultBusyTimeout) ++ ")&_pragma=foreign_keys(ON)"

/-- A sql.DB pool with the configuration the package applies to it. -/
structure DB where
  dsn : String
  maxOpenConns : Nat
  maxIdleConns : Nat
  connMaxLifetime : Nat
deriving Repr, DecidableEq

/-- SQLite holds separate read/write pools; a nil pool is Option.none. -/
structure SQLite where
  rw : Option DB
  ro : Option DB
deriving Repr, DecidableEq

/-- Oracle for the effects outside this package during NewWithPath: results
of the two sql.Open calls, the two pings, runtime.GOMAXPROCS(0), and the
configured database URL (present in the surrounding program, unread by New). -/
structure World where
  openRWErr : Option String
  pingRWErr : Option String
  openROErr : Option String
  pingROErr : Option String
  gomaxprocs : Nat
  databaseURL : String
deriving Repr, DecidableEq

/-- Observable outcome of NewWithPath: the returned gateway or error, which
branch ran, which pools were opened and closed, and the contexts used for
the two connectivity pings. -/
structure InitResult where
  db : Option SQLite
  err : Option String
  emptyPathBranch : Bool
  openedRW : Bool
  openedRO : Bool
  closedRW : Bool
  closedRO : Bool
  pingRWCtx : Option Context
  pingROCtx : Option Context
deriving Repr, DecidableEq

/-- pingWithTimeout: pings under a context.WithTimeout(Background, d) scope;
the ping result is the oracle value, and the context used is returned. -/
def pingWithTimeout (d : Nat) (pingErr : Option String) : Option String × Context :=
  (pingErr, Context.withTimeout Context.background d)

/-- NewWithPath creates SQLite pools for a specific file/URI path. -/
def NewWithPath (w : World) (path : String) : InitResult :=
  if path = "" then
    { db := none, err := some "database path required", emptyPathBranch := true,
      openedRW := false, openedRO := false, closedRW := false, closedRO := false,
      pingRWCtx := none, pingROCtx := none }
  else
    match w.openRWErr with
    | some e =>
      { db := none, err := some ("open RW: " ++ e), emptyPathBranch := false,
        openedRW := false, openedRO := false, closedRW := false, closedRO := false,
        pingRWCtx := none, pingROCtx := none }
    | none =>
      let rw : DB :=
        { dsn := rwDSN path, maxOpenConns := 1, maxIdleConns := 1,
          connMaxLifetime := defaultConnMaxLifeRW }
      let pingRW := pingWithTimeout defaultWriteOpTimeout w.pingRWErr
      match w.pingRWErr with
      | some e =>
        { db := none, err := some ("ping RW: " ++ e), emptyPathBranch := false,
          openedRW := true, openedRO := false, closedRW := true, closedRO := false,
          pingRWCtx := some pingRW.2, pingROCtx := none }
      | none =>
        match w.openROErr with
        | some e =>
          { db := none, err := some ("open RO: " ++ e), emptyPathBranch := false,
            openedRW := true, openedRO := false, closedRW := true, closedRO := false,
            pingRWCtx := some pingRW.2, pingROCtx := none }
        | none =>
          let m : Nat :=
            if w.gomaxprocs > defaultReadPoolMinimum then w.gomaxprocs
            else defaultReadPoolMinimum
          let ro : DB :=
            { dsn := roDSN path, maxOpenConns := m, maxIdleConns := m,
              connMaxLifetime := defaultConnMaxLifeRO }
          let pingRO := pingWithTimeout defaultReadOpTimeout w.pingROErr
          match w.pingROErr with
          | some e =>
            { db := none, err := some ("ping RO: " ++ e), emptyPathBranch := false,
              openedRW := true, openedRO := true, closedRW := true, closedRO := true,
              pingRWCtx := some pingRW.2, pingROCtx := some pingRO.2 }
          | none =>
            { db := some { rw := some rw, ro := some ro }, err := none,
              emptyPathBranch := false,
              openedRW := true, openedRO := true, closedRW := false, closedRO := false,
              pingRWCtx := some pingRW.2, pingROCtx := some pingRO.2 }

/-- New initializes RW/RO pools at the hard-coded path "edev.db". -/
def New (w : World) : InitResult := NewWithPath w "edev.db"

/-- Oracle for an underlying sql.Row: results of its Scan and Err methods. -/
structure SqlRow where
  scanErr : Option String
  errResult : Option String
deriving Repr, DecidableEq

/-- Row wraps sql.Row so that the timeout context is canceled only after
Scan or Err is invoked: hasCancel models cancel != nil, onceDone models the
state of the sync.Once guard, err is the stored error of an errorRow. -/
structure Row where
  row : Option SqlRow
  hasCancel : Bool
  onceDone : Bool
  err : Option String
deriving Repr, DecidableEq

/-- newRow wraps an underlying row together with its cancel token. -/
def newRow (r : Option SqlRow) (hasCancel : Bool) : Row :=
  { row := r, hasCancel := hasCancel, onceDone := false, err := none }

/-- errorRow carries a stored error and no cancel token. -/
def errorRow (e : String) : Row :=
  { row := none, hasCancel := false, onceDone := false, err := some e }

/-- release fires the sync.Once guard; the returned Nat counts how many
times the cancel token was actually invoked by this call. -/
def Row.release : Option Row → Option Row × Nat
  | none => (none, 0)
  | some r =>
    if r.onceDone then (some r, 0)
    else (some { r with onceDone := true }, if r.hasCancel then 1 else 0)

/-- Result of one Row method call: returned error, new handle state, and
the number of cancel-token invocations performed. -/
structure RowStep where
  ret : Option String
  st : Option Row
  cancels : Nat
deriving Repr, DecidableEq

/-- Scan delegates to the underlying sql.Row while ensuring the timeout
context is released (deferred release on the success path). -/
def Row.Scan : Option Row → RowStep
  | none => { ret := some "nil row", st := none, cancels := 0 }
  | some r =>
    match r.err with
    | some e => { ret := some e, st := some r, cancels := 0 }
    | none =>
      match r.row with
      | none => { ret := some "nil row", st := some r, cancels := 0 }
      | some sr =>
        let rel := Row.release (some r)
        { ret := sr.scanErr, st := rel.1, cancels := rel.2 }

/-- Err mirrors (*sql.Row).Err and releases the timeout context. -/
def Row.Err : Option Row → RowStep
  | none => { ret := some "nil row", st := none, cancels := 0 }
  | some r =>
    match r.err with
    | some e => { ret := some e, st := some r, cancels := 0 }
    | none =>
      match r.row with
      | none => { ret := some "nil row", st := some r, cancels := 0 }
      | some sr =>
        let rel := Row.release (some r)
        { ret := sr.errResult, st := rel.1, cancels := rel.2 }

/-- A caller action on a Row handle: a Scan call or an Err call. -/
inductive RowOp where
  | scan : RowOp
  | errOp : RowOp
deriving Repr, DecidableEq

/-- Dispatch one caller action on a Row handle. -/
def rowStep : RowOp → Option Row → RowStep
  | RowOp.scan, r => Row.Scan r
  | RowOp.errOp, r => Row.Err r

/-- Run a whole caller interaction with a Row handle, returning the final
handle state and the total number of cancel-token invocations. -/
def runRowOps : List RowOp → Option Row → Option Row × Nat
  | [], r => (r, 0)
  | op :: ops, r =>
    let s := rowStep op r
    let rest := runRowOps ops s.st
    (rest.1, s.cancels + rest.2)

/-- Oracle for an underlying sql.Tx: results of the driver-level Commit,
Rollback, ExecContext and QueryContext, and the row QueryRowContext yields. -/
structure SqlTx where
  commitErr : Option String
  rollbackErr : Option String
  execErr : Option String
  queryErr : Option String
  queryRowResult : SqlRow
deriving Repr, DecidableEq

/-- Transaction wraps a write transaction; tx = none is a nil sql.Tx. -/
structure Transaction where
  tx : Option SqlTx
deriving Repr, DecidableEq

/-- Outcome of Commit or Rollback: returned error, transaction state after
the call, and whether the underlying driver Rollback was invoked. -/
structure TxResult where
  ret : Option String
  st : Option Transaction
  rolledBack : Bool
deriving Repr, DecidableEq

/-- Commit finalizes a transaction; on error, attempts a rollback, returns
the commit error, and clears tx either way. -/
def Transaction.Commit : Option Transaction → TxResult
  | none => { ret := some "nil tx", st := none, rolledBack := false }
  | some t =>
    match t.tx with
    | none => { ret := some "nil tx", st := some t, rolledBack := false }
    | some tx =>
      match tx.commitErr with
      | some e => { ret := some e, st := some { tx := none }, rolledBack := true }
      | none => { ret := none, st := some { tx := none }, rolledBack := false }

/-- Rollback aborts the transaction; a nil receiver or nil tx is a no-op
returning nil. -/
def Transaction.Rollback : Option Transaction → TxResult
  | none => { ret := none, st := none, rolledBack := false }
  | some t =>
    match t.tx with
    | none => { ret := none, st := some t, rolledBack := false }
    | some tx => { ret := tx.rollbackErr, st := some { tx := none }, rolledBack := true }

/-- Outcome of a statement-level operation: returned error, the context the
driver call ran under (none when the call was never reached), and the SQL
text passed through (none when the call was never reached). -/
structure OpResult where
  err : Option String
  ctx : Option Context
  query : Option String
deriving Repr, DecidableEq

/-- Exec executes a write statement inside the transaction under a write
timeout context. -/
def Transaction.Exec (t : Option Transaction) (q : String) : OpResult :=
  match t with
  | none => { err := some "nil tx", ctx := none, query := none }
  | some tr =>
    match tr.tx with
    | none => { err := some "nil tx", ctx := none, query := none }
    | some tx =>
      { err := tx.execErr,
        ctx := some (Context.withTimeout Context.background defaultWriteOpTimeout),
        query := some q }

/-- Query runs a SELECT inside the transaction under a read timeout context. -/
def Transaction.Query (t : Option Transaction) (q : String) : OpResult :=
  match t with
  | none => { err := some "nil tx", ctx := none, query := none }
  | some tr =>
    match tr.tx with
    | none => { err := some "nil tx", ctx := none, query := none }
    | some tx =>
      { err := tx.queryErr,
        ctx := some (Context.withTimeout Context.background defaultReadOpTimeout),
        query := some q }

/-- Result of a QueryRow call: the handle and the context the driver call
ran under (none when the call was never reached). -/
structure QueryRowResult where
  row : Row
  ctx : Option Context
deriving Repr, DecidableEq

/-- QueryRow returns a single row inside the transaction; its timeout
context is handed to the Row for deferred cancellation. -/
def Transaction.QueryRow (t : Option Transaction) : QueryRowResult :=
  match t with
  | none => { row := errorRow "nil tx", ctx := none }
  | some tr =>
    match tr.tx with
    | none => { row := errorRow "nil tx", ctx := none }
    | some tx =>
      { row := newRow (some tx.queryRowResult) true,
        ctx := some (Context.withTimeout Context.background defaultReadOpTimeout) }

/-- Outcome of BeginTransaction: the transaction or error, plus the context
passed to BeginTx (none when the call was never reached). -/
structure BeginResult where
  ret : Option Transaction
  err : Option String
  ctx : Option Context
deriving Repr, DecidableEq

/-- BeginTransaction starts a write transaction; no timeout context is set
on BeginTx itself (it runs under context.Background()). -/
def SQLite.BeginTransaction (s : Option SQLite) (beginErr : Option String)
    (freshTx : SqlTx) : BeginResult :=
  match s with
  | none => { ret := none, err := some "db not initialized", ctx := none }
  | some g =>
    match g.rw with
    | none => { ret := none, err := some "db not initialized", ctx := none }
    | some _ =>
      match beginErr with
      | some e => { ret := none, err := some e, ctx := some Context.background }
      | none =>
        { ret := some { tx := some freshTx }, err := none,
          ctx := some Context.background }

/-- Exec executes a write statement on the RW pool under a write timeout. -/
def SQLite.Exec (s : Option SQLite) (q : String) (execErr : Option String) : OpResult :=
  match s with
  | none => { err := some "db not initialized", ctx := none, query := none }
  | some g =>
    match g.rw with
    | none => { err := some "db not initialized", ctx := none, query := none }
    | some _ =>
      { err := execErr,
        ctx := some (Context.withTimeout Context.background defaultWriteOpTimeout),
        query := some q }

/-- Query executes a SELECT on the RO pool under a read timeout. -/
def SQLite.Query (s : Option SQLite) (q : String) (queryErr : Option String) : OpResult :=
  match s with
  | none => { err := some "db not initialized", ctx := none, query := none }
  | some g =>
    match g.ro with
    | none => { err := some "db not initialized", ctx := none, query := none }
    | some _ =>
      { err := queryErr,
        ctx := some (Context.withTimeout Context.background defaultReadOpTimeout),
        query := some q }

/-- QueryRow executes a single-row SELECT on the RO pool; its timeout
context is handed to the Row for deferred cancellation. -/
def SQLite.QueryRow (s : Option SQLite) (sr : SqlRow) : QueryRowResult :=
  match s with
  | none => { row := errorRow "db not initialized", ctx := none }
  | some g =>
    match g.ro with
    | none => { row := errorRow "db not initialized", ctx := none }
    | some _ =>
      { row := newRow (some sr) true,
        ctx := some (Context.withTimeout Context.background defaultReadOpTimeout) }

/-- QueryRW allows SELECT using the RW pool under a read timeout. -/
def SQLite.QueryRW (s : Option SQLite) (q : String) (queryErr : Option String) : OpResult :=
  match s with
  | none => { err := some "db not initialized", ctx := none, query := none }
  | some g =>
    match g.rw with
    | none => { err := some "db not initialized", ctx := none, query := none }
    | some _ =>
      { err := queryErr,
        ctx := some (Context.withTimeout Context.background defaultReadOpTimeout),
        query := some q }

/-- CheckpointWAL triggers a WAL checkpoint with TRUNCATE on the RW pool
under a 3-second timeout. -/
def SQLite.CheckpointWAL (s : Option SQLite) (cpErr : Option String) : OpResult :=
  match s with
  | none => { err := some "db not initialized", ctx := none, query := none }
  | some g =>
    match g.rw with
    | none => { err := some "db not initialized", ctx := none, query := none }
    | some _ =>
      { err := cpErr,
        ctx := some (Context.withTimeout Context.background (3 * second)),
        query := some "PRAGMA wal_checkpoint(TRUNCATE)" }

/-- Observable outcome of Close: what was logged, which pools had Close
called on them (utils.Closer skips nil pools), and the context the
best-effort checkpoint ran under. -/
structure CloseResult where
  logged : List String
  closedRO : Bool
  closedRW : Bool
  checkpointCtx : Option Context
deriving Repr, DecidableEq

/-- Close closes pools after a best-effort WAL checkpoint; a checkpoint
error is logged, never returned, and a nil gateway is a no-op. -/
def SQLite.Close (s : Option SQLite) (cpErr : Option String) : CloseResult :=
  match s with
  | none => { logged := [], closedRO := false, closedRW := false, checkpointCtx := none }
  | some g =>
    let cp := SQLite.CheckpointWAL (some g) cpErr
    let lg : List String :=
      match cp.err with
      | some e => ["wal checkpoint: " ++ e]
      | none => []
    { logged := lg, closedRO := g.ro.isSome, closedRW := g.rw.isSome,
      checkpointCtx := cp.ctx }

/-- Concrete underlying row used by witnesses. -/
def srDemo : SqlRow := { scanErr := none, errResult := none }

/-- Concrete pool used by witnesses. -/
def dbDemo : DB :=
  { dsn := "demo", maxOpenConns := 1, maxIdleConns := 1, connMaxLifetime := 0 }

/-- Concrete fully initialized gateway used by witnesses. -/
def gwDemo : SQLite := { rw := some dbDemo, ro := some dbDemo }

/-- Concrete well-behaved underlying transaction used by witnesses. -/
def txDemo : SqlTx :=
  { commitErr := none, rollbackErr := none, execErr := none, queryErr := none,
    queryRowResult := srDemo }

/-- Concrete open transaction wrapper used by witnesses. -/
def txOpenDemo : Transaction := { tx := some txDemo }

/-- Concrete underlying transaction whose Commit and Rollback both fail,
with distinct messages, used by the C2 witness and counterexample. -/
def txCommitFail : SqlTx :=
  { txDemo with commitErr := some "commit failed",
                rollbackErr := some "rollback failed" }

/-- Concrete world in which every driver call succeeds. -/
def wDemo : World :=
  { openRWErr := none, pingRWErr := none, openROErr := none, pingROErr := none,
    gomaxprocs := 8, databaseURL := "postgres://ignored" }

/-- Concrete world in which the read-only pool's ping fails. -/
def wPingROFail : World := { wDemo with pingROErr := some "locked" }

/-- The gateway produced by a fully successful initialization in wDemo. -/
def sDemoInit : SQLite :=
  ((NewWithPath wDemo "edev.db").db).getD { rw := none, ro := none }

/-- A Scan call on a handle whose once-guard has already fired cancels
nothing and leaves the handle unchanged. -/
theorem scanStep_done (r : Row) (h : r.onceDone = true) :
    (Row.Scan (some r)).st = some r ∧ (Row.Scan (some r)).cancels = 0 := by
  rcases r with ⟨row, hc, od, e⟩
  simp only at h
  subst h
  cases e <;> cases row <;> simp [Row.Scan, Row.release]

/-- An Err call on a handle whose once-guard has already fired cancels
nothing and leaves the handle unchanged. -/
theorem errStep_done (r : Row) (h : r.onceDone = true) :
    (Row.Err (some r)).st = some r ∧ (Row.Err (some r)).cancels = 0 := by
  rcases r with ⟨row, hc, od, e⟩
  simp only at h
  subst h
  cases e <;> cases row <;> simp [Row.Err, Row.release]

/-- No interaction with a handle whose once-guard has already fired ever
invokes the cancel token again. -/
theorem runRowOps_done (ops : List RowOp) (r : Row) (h : r.onceDone = true) :
    (runRowOps ops (some r)).2 = 0 := by
  induction ops with
  | nil => rfl
  | cons op tl ih =>
    cases op with
    | scan =>
      have hs := scanStep_done r h
      simp [runRowOps, rowStep, hs.1, hs.2, ih]
    | errOp =>
      have hs := errStep_done r h
      simp [runRowOps, rowStep, hs.1, hs.2, ih]

/-- Any nonempty interaction with a freshly created cancel-carrying handle
invokes the cancel token exactly once. -/
theorem runRowOps_fresh (sr : SqlRow) (op : RowOp) (tl : List RowOp) :
    (runRowOps (op :: tl) (some (newRow (some sr) true))).2 = 1 := by
  cases op with
  | scan =>
    have hstep : Row.Scan (some (newRow (some sr) true)) =
        { ret := sr.scanErr,
          st := some { row := some sr, hasCancel := true, onceDone := true, err := none },
          cancels := 1 } := rfl
    simp [runRowOps, rowStep, hstep,
      runRowOps_done tl { row := some sr, hasCancel := true, onceDone := true, err := none } rfl]
  | errOp =>
    have hstep : Row.Err (some (newRow (some sr) true)) =
        { ret := sr.errResult,
          st := some { row := some sr, hasCancel := true, onceDone := true, err := none },
          cancels := 1 } := rfl
    simp [runRowOps, rowStep, hstep,
      runRowOps_done tl { row := some sr, hasCancel := true, onceDone := true, err := none } rfl]

/-- C1 (amended): for every Row handle returned by QueryRow on an
initialized gateway or a live transaction, the timeout cancel token is
invoked exactly once over any caller interaction that calls Scan or Err at
least once, regardless of which methods are called, in which order, or how
many times. (The unamended claim also asserted a release on abandonment;
the handle performs none — see the counterexample.) -/
theorem C1_released_exactly_once (s : SQLite) (t : Transaction) (sr : SqlRow)
    (ops : List RowOp) (hro : s.ro.isSome = true) (htx : t.tx.isSome = true)
    (hops : ops ≠ []) :
    (runRowOps ops (some (SQLite.QueryRow (some s) sr).row)).2 = 1 ∧
    (runRowOps ops (some (Transaction.QueryRow (some t)).row)).2 = 1 := by
  rcases s with ⟨rw, ro⟩
  cases ro with
  | none => simp at hro
  | some rodb =>
    rcases t with ⟨tx⟩
    cases tx with
    | none => simp at htx
    | some utx =>
      cases ops with
      | nil => exact absurd rfl hops
      | cons op tl =>
        exact ⟨runRowOps_fresh sr op tl, runRowOps_fresh utx.queryRowResult op tl⟩

/-- C1 witness: on the demo gateway and demo open transaction, a caller
that calls Scan and then Err sees the cancel token invoked exactly once. -/
theorem C1_witness :
    (runRowOps [RowOp.scan, RowOp.errOp]
      (some (SQLite.QueryRow (some gwDemo) srDemo).row)).2 = 1 ∧
    (runRowOps [RowOp.scan, RowOp.errOp]
      (some (Transaction.QueryRow (some txOpenDemo)).row)).2 = 1 :=
  C1_released_exactly_once gwDemo txOpenDemo srDemo [RowOp.scan, RowOp.errOp]
    rfl rfl (by decide)

/-- C1 counterexample: a caller that abandons the handle returned by
QueryRow without calling Scan or Err leaves the cancel token uninvoked, so
the token is not released exactly once in that case. -/
theorem C1_counterexample :
    ¬ (runRowOps [] (some (SQLite.QueryRow (some gwDemo) srDemo).row)).2 = 1 := by
  decide

/-- C2 (amended): when the underlying Commit fails, a rollback is
automatically attempted, the original commit error (not the rollback's) is
returned, and the transaction is marked resolved, so a further Commit
reports an error while a further Rollback is a success-reporting no-op.
(The unamended claim asserted that a further Rollback also reports an
error — it reports nil; see the counterexample.) -/
theorem C2_commit_failure_cleanup (t : SqlTx) (e : String) (h : t.commitErr = some e) :
    (Transaction.Commit (some { tx := some t })).ret = some e ∧
    (Transaction.Commit (some { tx := some t })).rolledBack = true ∧
    (Transaction.Commit (some { tx := some t })).st = some { tx := none } ∧
    (Transaction.Commit (Transaction.Commit (some { tx := some t })).st).ret =
      some "nil tx" ∧
    (Transaction.Rollback (Transaction.Commit (some { tx := some t })).st).ret = none ∧
    (Transaction.Rollback (Transaction.Commit (some { tx := some t })).st).rolledBack =
      false := by
  rcases t with ⟨ce, re, ee, qe, qr⟩
  cases ce with
  | none => exact Option.noConfusion h
  | some e2 =>
    have he : e2 = e := Option.some.inj h
    subst he
    exact ⟨rfl, rfl, rfl, rfl, rfl, rfl⟩

/-- C2 witness: on the demo transaction whose commit fails with "commit
failed" and whose rollback fails with a different message, Commit returns
the commit error, attempts the rollback, resolves the object, and further
Commit errors while further Rollback reports nil. -/
theorem C2_witness :
    (Transaction.Commit (some { tx := some txCommitFail })).ret = some "commit failed" ∧
    (Transaction.Commit (some { tx := some txCommitFail })).rolledBack = true ∧
    (Transaction.Commit (some { tx := some txCommitFail })).st = some { tx := none } ∧
    (Transaction.Commit (Transaction.Commit (some { tx := some txCommitFail })).st).ret =
      some "nil tx" ∧
    (Transaction.Rollback
      (Transaction.Commit (some { tx := some txCommitFail })).st).ret = none ∧
    (Transaction.Rollback
      (Transaction.Commit (some { tx := some txCommitFail })).st).rolledBack = false :=
  C2_commit_failure_cleanup txCommitFail "commit failed" rfl

/-- C2 counterexample: after a failed Commit has resolved the transaction,
a further Rollback reports nil (success), not an error as the claim as
stated asserts. -/
theorem C2_counterexample :
    (Transaction.Rollback
      (Transaction.Commit (some { tx := some txCommitFail })).st).ret.isSome = false := by
  decide

/-- C3: a second Commit on the same transaction object returns an error
and mutates nothing further, and Rollback is idempotent: when the
underlying abort succeeds the first Rollback reports success, and a
Rollback on an already-resolved object reports success, performs no
underlying rollback, and leaves the state unchanged. -/
theorem C3_idempotent_resolution (t : SqlTx) (h : t.rollbackErr = none) :
    (Transaction.Commit (Transaction.Commit (some { tx := some t })).st).ret =
      some "nil tx" ∧
    (Transaction.Commit (Transaction.Commit (some { tx := some t })).st).rolledBack =
      false ∧
    (Transaction.Commit (Transaction.Commit (some { tx := some t })).st).st =
      (Transaction.Commit (some { tx := some t })).st ∧
    (Transaction.Rollback (some { tx := some t })).ret = none ∧
    (Transaction.Rollback (Transaction.Rollback (some { tx := some t })).st).ret = none ∧
    (Transaction.Rollback
      (Transaction.Rollback (some { tx := some t })).st).rolledBack = false ∧
    (Transaction.Rollback (Transaction.Rollback (some { tx := some t })).st).st =
      (Transaction.Rollback (some { tx := some t })).st := by
  rcases t with ⟨ce, re, ee, qe, qr⟩
  cases re with
  | some e2 => exact Option.noConfusion h
  | none => cases ce <;> exact ⟨rfl, rfl, rfl, rfl, rfl, rfl, rfl⟩

/-- C3 witness: on the demo transaction, the second Commit errors without
a further state change, and both Rollback calls report success with the
second one a pure no-op. -/
theorem C3_witness :
    (Transaction.Commit (Transaction.Commit (some { tx := some txDemo })).st).ret =
      some "nil tx" ∧
    (Transaction.Commit (Transaction.Commit (some { tx := some txDemo })).st).rolledBack =
      false ∧
    (Transaction.Commit (Transaction.Commit (some { tx := some txDemo })).st).st =
      (Transaction.Commit (some { tx := some txDemo })).st ∧
    (Transaction.Rollback (some { tx := some txDemo })).ret = none ∧
    (Transaction.Rollback (Transaction.Rollback (some { tx := some txDemo })).st).ret =
      none ∧
    (Transaction.Rollback
      (Transaction.Rollback (some { tx := some txDemo })).st).rolledBack = false ∧
    (Transaction.Rollback (Transaction.Rollback (some { tx := some txDemo })).st).st =
      (Transaction.Rollback (some { tx := some txDemo })).st :=
  C3_idempotent_resolution txDemo rfl

/-- C4: initialization with an empty path fails with the configuration
error and opens no pool, and for every non-empty path the empty-path
branch is never taken. -/
theorem C4_empty_path_rejected (w : World) (p : String) :
    ((NewWithPath w "").err = some "database path required" ∧
     (NewWithPath w "").db = none ∧
     (NewWithPath w "").openedRW = false ∧
     (NewWithPath w "").openedRO = false ∧
     (NewWithPath w "").emptyPathBranch = true) ∧
    (p ≠ "" → (NewWithPath w p).emptyPathBranch = false) := by
  constructor
  · exact ⟨rfl, rfl, rfl, rfl, rfl⟩
  · intro hp
    rcases w with ⟨o1, p1, o2, p2, g, u⟩
    cases o1 <;> cases p1 <;> cases o2 <;> cases p2 <;> simp [NewWithPath, hp]

/-- C4 witness: in the all-success demo world, initialization at "" fails
with the configuration error and opens nothing, while initialization at
"edev.db" never takes the empty-path branch. -/
theorem C4_witness :
    ((NewWithPath wDemo "").err = some "database path required" ∧
     (NewWithPath wDemo "").db = none ∧
     (NewWithPath wDemo "").openedRW = false ∧
     (NewWithPath wDemo "").openedRO = false ∧
     (NewWithPath wDemo "").emptyPathBranch = true) ∧
    (NewWithPath wDemo "edev.db").emptyPathBranch = false :=
  ⟨(C4_empty_path_rejected wDemo "edev.db").1,
   (C4_empty_path_rejected wDemo "edev.db").2 (by decide)⟩

/-- C5: initialization either succeeds with both pools opened, neither
closed, and both verified by a timeout-bounded ping, or it fails with
every already-opened pool closed again; and each failure is reported with
a distinct message naming the failing step and pool. -/
theorem C5_init_cleanup_and_errors (w : World) (path : String) :
    ((NewWithPath w path).err = none →
      (NewWithPath w path).db.isSome = true ∧
      (NewWithPath w path).openedRW = true ∧
      (NewWithPath w path).openedRO = true ∧
      (NewWithPath w path).closedRW = false ∧
      (NewWithPath w path).closedRO = false ∧
      (NewWithPath w path).pingRWCtx =
        some (Context.withTimeout Context.background defaultWriteOpTimeout) ∧
      (NewWithPath w path).pingROCtx =
        some (Context.withTimeout Context.background defaultReadOpTimeout)) ∧
    ((NewWithPath w path).err ≠ none →
      (NewWithPath w path).db = none ∧
      ((NewWithPath w path).openedRW = true → (NewWithPath w path).closedRW = true) ∧
      ((NewWithPath w path).openedRO = true → (NewWithPath w path).closedRO = true)) ∧
    (path ≠ "" →
      (∀ e, w.openRWErr = some e →
        (NewWithPath w path).err = some ("open RW: " ++ e) ∧
        (NewWithPath w path).openedRW = false ∧
        (NewWithPath w path).openedRO = false) ∧
      (∀ e, w.openRWErr = none → w.pingRWErr = some e →
        (NewWithPath w path).err = some ("ping RW: " ++ e) ∧
        (NewWithPath w path).openedRW = true ∧
        (NewWithPath w path).closedRW = true ∧
        (NewWithPath w path).openedRO = false) ∧
      (∀ e, w.openRWErr = none → w.pingRWErr = none → w.openROErr = some e →
        (NewWithPath w path).err = some ("open RO: " ++ e) ∧
        (NewWithPath w path).closedRW = true ∧
        (NewWithPath w path).openedRO = false) ∧
      (∀ e, w.openRWErr = none → w.pingRWErr = none → w.openROErr = none →
        w.pingROErr = some e →
        (NewWithPath w path).err = some ("ping RO: " ++ e) ∧
        (NewWithPath w path).closedRW = true ∧
        (NewWithPath w path).closedRO = true)) := by
  rcases w with ⟨o1, p1, o2, p2, g, u⟩
  by_cases hp : path = ""
  · subst hp
    simp [NewWithPath]
  · cases o1 <;> cases p1 <;> cases o2 <;> cases p2 <;>
      simp [NewWithPath, pingWithTimeout, hp]

/-- C5 witness: in the demo world whose read-only ping fails with
"locked", initialization reports "ping RO: locked" and closes both pools
it had opened. -/
theorem C5_witness :
    (NewWithPath wPingROFail "edev.db").err = some ("ping RO: " ++ "locked") ∧
    (NewWithPath wPingROFail "edev.db").closedRW = true ∧
    (NewWithPath wPingROFail "edev.db").closedRO = true :=
  ((C5_init_cleanup_and_errors wPingROFail "edev.db").2.2
    (by decide)).2.2.2 "locked" rfl rfl rfl rfl

/-- The reader pool size computed by NewWithPath is the maximum of the
fixed minimum and GOMAXPROCS. -/
theorem readPoolMax_eq (g : Nat) :
    (if g > defaultReadPoolMinimum then g else defaultReadPoolMinimum) =
      Nat.max defaultReadPoolMinimum g := by
  unfold defaultReadPoolMinimum
  rcases Nat.lt_or_ge 4 g with h | h
  · rw [if_pos h]
    exact (Nat.max_eq_right (Nat.le_of_lt h)).symm
  · rw [if_neg (Nat.not_lt.mpr h)]
    exact (Nat.max_eq_left h).symm

/-- C6: every gateway produced by a successful initialization has a writer
pool with exactly one maximum open and one idle connection, and a reader
pool whose maximum open connections is the greater of the fixed minimum 4
and the number of available processing units. -/
theorem C6_pool_sizing (w : World) (path : String) (s : SQLite)
    (h : (NewWithPath w path).db = some s) :
    (∃ a, s.rw = some a ∧ a.maxOpenConns = 1 ∧ a.maxIdleConns = 1) ∧
    (∃ b, s.ro = some b ∧
      b.maxOpenConns = Nat.max defaultReadPoolMinimum w.gomaxprocs) := by
  rcases w with ⟨o1, p1, o2, p2, g, u⟩
  by_cases hp : path = ""
  · subst hp
    exact absurd h (by simp [NewWithPath])
  · cases o1 <;> cases p1 <;> cases o2 <;> cases p2 <;>
      simp [NewWithPath, hp] at h ⊢
    subst h
    exact ⟨⟨_, rfl, rfl, rfl⟩, ⟨_, rfl, readPoolMax_eq g⟩⟩

/-- C6 witness: the gateway initialized in the demo world (8 processing
units) has writer limits 1/1 and reader limit max 4 8. -/
theorem C6_witness :
    (∃ a, sDemoInit.rw = some a ∧ a.maxOpenConns = 1 ∧ a.maxIdleConns = 1) ∧
    (∃ b, sDemoInit.ro = some b ∧
      b.maxOpenConns = Nat.max defaultReadPoolMinimum wDemo.gomaxprocs) :=
  C6_pool_sizing wDemo "edev.db" sDemoInit rfl

/-- C7: BeginTransaction passes an unbounded background context to the
driver, while Exec, Query and QueryRow inside a live transaction each run
under their own bounded timeout context (write timeout for Exec, read
timeout for Query and QueryRow). -/
theorem C7_transaction_timeouts (s : SQLite) (t : Transaction)
    (berr : Option String) (ftx : SqlTx) (q : String)
    (hrw : s.rw.isSome = true) (htx : t.tx.isSome = true) :
    (SQLite.BeginTransaction (some s) berr ftx).ctx = some Context.background ∧
    Context.bounded Context.background = false ∧
    (Transaction.Exec (some t) q).ctx =
      some (Context.withTimeout Context.background defaultWriteOpTimeout) ∧
    (Transaction.Query (some t) q).ctx =
      some (Context.withTimeout Context.background defaultReadOpTimeout) ∧
    (Transaction.QueryRow (some t)).ctx =
      some (Context.withTimeout Context.background defaultReadOpTimeout) ∧
    Context.bounded (Context.withTimeout Context.background defaultWriteOpTimeout) =
      true ∧
    Context.bounded (Context.withTimeout Context.background defaultReadOpTimeout) =
      true := by
  rcases s with ⟨rw, ro⟩
  cases rw with
  | none => simp at hrw
  | some rwdb =>
    rcases t with ⟨tx⟩
    cases tx with
    | none => simp at htx
    | some utx =>
      cases berr <;> exact ⟨rfl, rfl, rfl, rfl, rfl, rfl, rfl⟩

/-- C7 witness: on the demo gateway and demo open transaction, the begin
call runs unbounded and each in-transaction statement runs bounded. -/
theorem C7_witness :
    (SQLite.BeginTransaction (some gwDemo) none txDemo).ctx =
      some Context.background ∧
    Context.bounded Context.background = false ∧
    (Transaction.Exec (some txOpenDemo) "UPDATE t SET a = 1").ctx =
      some (Context.withTimeout Context.background defaultWriteOpTimeout) ∧
    (Transaction.Query (some txOpenDemo) "UPDATE t SET a = 1").ctx =
      some (Context.withTimeout Context.background defaultReadOpTimeout) ∧
    (Transaction.QueryRow (some txOpenDemo)).ctx =
      some (Context.withTimeout Context.background defaultReadOpTimeout) ∧
    Context.bounded (Context.withTimeout Context.background defaultWriteOpTimeout) =
      true ∧
    Context.bounded (Context.withTimeout Context.background defaultReadOpTimeout) =
      true :=
  C7_transaction_timeouts gwDemo txOpenDemo none txDemo "UPDATE t SET a = 1" rfl rfl

/-- C8: Close on a gateway with a writer pool runs the WAL truncation
checkpoint under its own 3-second bounded context, closes the pools
whether or not the checkpoint failed, logs (and does not return) a
checkpoint error, and Close on a nil gateway is a no-op. -/
theorem C8_close_best_effort (s : SQLite) (cpErr : Option String) (e : String)
    (hrw : s.rw.isSome = true) :
    SQLite.Close none cpErr =
      { logged := [], closedRO := false, closedRW := false, checkpointCtx := none } ∧
    (SQLite.Close (some s) cpErr).checkpointCtx =
      some (Context.withTimeout Context.background (3 * second)) ∧
    (SQLite.Close (some s) cpErr).closedRW = true ∧
    (SQLite.Close (some s) cpErr).closedRO = s.ro.isSome ∧
    (SQLite.CheckpointWAL (some s) cpErr).query =
      some "PRAGMA wal_checkpoint(TRUNCATE)" ∧
    (cpErr = some e →
      (SQLite.Close (some s) cpErr).logged = ["wal checkpoint: " ++ e]) ∧
    (cpErr = none → (SQLite.Close (some s) cpErr).logged = []) := by
  rcases s with ⟨rw, ro⟩
  cases rw with
  | none => simp at hrw
  | some rwdb =>
    cases cpErr with
    | none =>
      exact ⟨rfl, rfl, rfl, rfl, rfl, fun h => Option.noConfusion h, fun _ => rfl⟩
    | some e2 =>
      refine ⟨rfl, rfl, rfl, rfl, rfl, ?_, fun h => Option.noConfusion h⟩
      intro h
      have he : e2 = e := Option.some.inj h
      subst he
      rfl

/-- C8 witness: on the demo gateway with a checkpoint failing as "busy",
Close still closes both pools, logs the checkpoint error, and ran the
checkpoint under the 3-second context; Close on nil is a no-op. -/
theorem C8_witness :
    SQLite.Close none (some "busy") =
      { logged := [], closedRO := false, closedRW := false, checkpointCtx := none } ∧
    (SQLite.Close (some gwDemo) (some "busy")).checkpointCtx =
      some (Context.withTimeout Context.background (3 * second)) ∧
    (SQLite.Close (some gwDemo) (some "busy")).closedRW = true ∧
    (SQLite.Close (some gwDemo) (some "busy")).closedRO = gwDemo.ro.isSome ∧
    (SQLite.CheckpointWAL (some gwDemo) (some "busy")).query =
      some "PRAGMA wal_checkpoint(TRUNCATE)" ∧
    (some "busy" = some "busy" →
      (SQLite.Close (some gwDemo) (some "busy")).logged =
        ["wal checkpoint: " ++ "busy"]) ∧
    ((some "busy" : Option String) = none →
      (SQLite.Close (some gwDemo) (some "busy")).logged = []) :=
  C8_close_best_effort gwDemo (some "busy") "busy" rfl

/-- C9 (amended): every gateway operation on a nil gateway or one whose
required pool is unset returns the "db not initialized" error (or an error
Row carrying it) rather than crashing, and every transaction operation on
a nil or tx-less Transaction likewise returns a defined value: Exec,
Query, QueryRow and Commit return the "nil tx" error, while Rollback
returns nil (success). (The unamended claim asserted that Rollback also
returns an error — see the counterexample.) -/
theorem C9_nil_safety (q : String) (e : Option String) (rw ro : Option DB)
    (sr : SqlRow) (ftx : SqlTx) :
    (SQLite.Exec none q e).err = some "db not initialized" ∧
    (SQLite.Exec (some { rw := none, ro := ro }) q e).err =
      some "db not initialized" ∧
    (SQLite.Query none q e).err = some "db not initialized" ∧
    (SQLite.Query (some { rw := rw, ro := none }) q e).err =
      some "db not initialized" ∧
    (SQLite.QueryRow none sr).row.err = some "db not initialized" ∧
    (SQLite.QueryRow (some { rw := rw, ro := none }) sr).row.err =
      some "db not initialized" ∧
    (SQLite.QueryRW none q e).err = some "db not initialized" ∧
    (SQLite.QueryRW (some { rw := none, ro := ro }) q e).err =
      some "db not initialized" ∧
    (SQLite.BeginTransaction none e ftx).err = some "db not initialized" ∧
    (SQLite.BeginTransaction (some { rw := none, ro := ro }) e ftx).err =
      some "db not initialized" ∧
    (SQLite.CheckpointWAL none e).err = some "db not initialized" ∧
    (SQLite.CheckpointWAL (some { rw := none, ro := ro }) e).err =
      some "db not initialized" ∧
    (Transaction.Exec none q).err = some "nil tx" ∧
    (Transaction.Exec (some { tx := none }) q).err = some "nil tx" ∧
    (Transaction.Query none q).err = some "nil tx" ∧
    (Transaction.Query (some { tx := none }) q).err = some "nil tx" ∧
    (Transaction.QueryRow none).row.err = some "nil tx" ∧
    (Transaction.QueryRow (some { tx := none })).row.err = some "nil tx" ∧
    (Transaction.Commit none).ret = some "nil tx" ∧
    (Transaction.Commit (some { tx := none })).ret = some "nil tx" ∧
    (Transaction.Rollback none).ret = none ∧
    (Transaction.Rollback (some { tx := none })).ret = none :=
  ⟨rfl, rfl, rfl, rfl, rfl, rfl, rfl, rfl, rfl, rfl, rfl, rfl, rfl, rfl, rfl, rfl,
   rfl, rfl, rfl, rfl, rfl, rfl⟩

/-- C9 counterexample: Rollback on a nil Transaction and on a tx-less
Transaction returns a nil error, not an error value as the claim as stated
asserts for every transaction operation. -/
theorem C9_counterexample :
    (Transaction.Rollback none).ret.isSome = false ∧
    (Transaction.Rollback (some { tx := none })).ret.isSome = false := by
  decide

/-- C10: the no-argument constructor always initializes at the fixed path
"edev.db", and its result is unchanged by the configured database URL. -/
theorem C10_new_fixed_path (w : World) (url : String) :
    New w = NewWithPath w "edev.db" ∧
    New { w with databaseURL := url } = New w := by
  constructor
  · rfl
  · rcases w with ⟨o1, p1, o2, p2, g, u⟩
    cases o1 <;> cases p1 <;> cases o2 <;> cases p2 <;> rfl

end Db
